import Mathlib

/-
Verification of the search-query translation and pagination engine of the
health-platform FHIR API handlers
(src/health_platform/api/{patient,encounter,observation}/handler.py).

The Python handlers are shallowly embedded: dictionaries become association
lists, Python values flowing through the handlers become a `Json` inductive
type, raised exceptions become `Except PyErr`, and the external warehouse
query executor (`health_platform.utils.db.execute_query`) becomes an explicit
function parameter of type `Executor`.
-/

set_option maxRecDepth 4096

/-- JSON values, modelling the Python objects (dicts, lists, strings, ints,
bools, None) that flow through the handlers.  Python `str` values are
`Json.str`; a "document" column value that arrives as raw text is therefore a
`Json.str` whose content is JSON source text. -/
inductive Json where
  | null : Json
  | bool : Bool → Json
  | num : Int → Json
  | str : String → Json
  | arr : List Json → Json
  | obj : List (String × Json) → Json

/-- Python exceptions that the handlers can raise or observe. -/
inductive PyErr where
  | valueError : String → PyErr
  | keyError : String → PyErr
  | dbError : String → PyErr
deriving Repr, DecidableEq

/-- A query-string or path-parameter mapping (Python `dict[str, str]`). -/
abbrev Params := List (String × String)

/-- A result row from the warehouse (Python `dict` of column name to value). -/
abbrev Row := List (String × Json)

/-- The external query executor (`execute_query(sql, params)`): black-box per
the call contract; it may return rows or raise. -/
abbrev Executor := String → Option (List String) → Except PyErr (List Row)

/-- Python dict `row[k]`: raises `KeyError` when the key is absent. -/
def rowGet (row : Row) (k : String) : Except PyErr Json :=
  match row.lookup k with
  | some v => Except.ok v
  | none => Except.error (PyErr.keyError k)

/-- Python truthiness of an optional string (`if x:`): `None` and the empty
string are falsy. -/
def truthy : Option String → Bool
  | none => false
  | some s => !(s == "")

/-- Accumulate the value of a (already checked non-empty) run of decimal
digits; fails on the first non-digit character. -/
def digitsVal : Nat → List Char → Option Nat
  | acc, [] => some acc
  | acc, c :: cs => if c.isDigit then digitsVal (acc * 10 + (c.toNat - 48)) cs else none

/-- All characters are decimal digits and there is at least one. -/
def allDigitsToNat : List Char → Option Nat
  | [] => none
  | cs => digitsVal 0 cs

/-- Drop leading whitespace characters. -/
def dropWsLeft : List Char → List Char
  | c :: cs => if c.isWhitespace then dropWsLeft cs else c :: cs
  | [] => []

/-- The characters of a string with surrounding whitespace stripped
(the Python `str.strip()` that `int` applies). -/
def stripChars (s : String) : List Char :=
  (dropWsLeft ((dropWsLeft s.data).reverse)).reverse

/-- Python `s.strip()` as a string. -/
def pyStrip (s : String) : String := String.mk (stripChars s)

/-- Split on commas, keeping empty pieces (Python `s.split(",")`). -/
def splitCommaAux (acc : List Char) : List Char → List String
  | [] => [String.mk acc.reverse]
  | c :: cs =>
    if c = ',' then String.mk acc.reverse :: splitCommaAux [] cs
    else splitCommaAux (c :: acc) cs

/-- Python `s.split(",")`: `""` yields `[""]`, and empty pieces between or
around commas are kept. -/
def pySplitComma (s : String) : List String := splitCommaAux [] s.data

/-- Python `int(s)` on a string: strip surrounding whitespace, allow one
optional sign, then require a non-empty run of base-10 digits; anything else
raises `ValueError` (modelled as `none`). -/
def pyInt (s : String) : Option Int :=
  match stripChars s with
  | [] => none
  | c :: rest =>
    if c = '-' then (allDigitsToNat rest).map (fun n => -(n : Int))
    else if c = '+' then (allDigitsToNat rest).map (fun n => (n : Int))
    else (allDigitsToNat (c :: rest)).map (fun n => (n : Int))

/-- Python `int(params.get(key, dflt))`: parse the supplied string, or use the
integer default when the key is absent. -/
def pyIntParam (params : Params) (key : String) (dflt : Int) : Option Int :=
  match params.lookup key with
  | none => some dflt
  | some s => pyInt s

/-- The pagination block shared verbatim by `search_encounters`
(handler.py:107-111) and `search_observations` (handler.py:108-112):
`count = min(int(params.get("_count", 100)), 1000)` then
`offset = int(params.get("_offset", 0))`; a `ValueError` in either parse
(modelled as `none`) aborts with the 400 response. -/
def pagination (params : Params) : Option (Int × Int) :=
  match pyIntParam params "_count" 100 with
  | none => none
  | some c =>
    match pyIntParam params "_offset" 0 with
    | none => none
    | some o => some (min c 1000, o)

/-- Opening brace character (kept out of string literals). -/
def lbrace : Char := Char.ofNat 123

/-- Closing brace character. -/
def rbrace : Char := Char.ofNat 125

/-- Skip JSON whitespace. -/
def skipWs : List Char → List Char
  | c :: cs => if c = ' ' ∨ c = '\t' ∨ c = '\n' ∨ c = '\r' then skipWs cs else c :: cs
  | [] => []

/-- Consume an expected literal token (e.g. `null`). -/
def stripToken : List Char → List Char → Option (List Char)
  | [], cs => some cs
  | t :: ts, c :: cs => if c = t then stripToken ts cs else none
  | _ :: _, [] => none

/-- Read the characters of a JSON string literal after its opening quote,
handling the basic escapes; returns the decoded string and the rest. -/
def strChars (acc : List Char) : List Char → Option (String × List Char)
  | '\"' :: rest => some (String.mk acc.reverse, rest)
  | '\\' :: c :: rest =>
    let esc : Option Char :=
      if c = 'n' then some '\n'
      else if c = 't' then some '\t'
      else if c = 'r' then some '\r'
      else if c = '\"' then some '\"'
      else if c = '\\' then some '\\'
      else if c = '/' then some '/' else none
    match esc with
    | some e => strChars (e :: acc) rest
    | none => none
  | c :: rest => strChars (c :: acc) rest
  | [] => none

/-- A non-empty greedy run of digits starting the input. -/
def parseDigits (cs : List Char) : Option (Nat × List Char) :=
  match cs with
  | c :: _ => if c.isDigit then some (parseDigitsAux 0 cs) else none
  | [] => none
where
  parseDigitsAux (acc : Nat) : List Char → Nat × List Char
    | c :: cs => if c.isDigit then parseDigitsAux (acc * 10 + (c.toNat - 48)) cs else (acc, c :: cs)
    | [] => (acc, [])

mutual

/-- Fuel-bounded parser for one JSON value (the integer/strings/arrays/objects
subset the stored documents use), modelling Python `json.loads`. -/
def parseVal : Nat → List Char → Option (Json × List Char)
  | 0, _ => none
  | Nat.succ fuel, cs =>
    match skipWs cs with
    | [] => none
    | c :: rest =>
      if c = '\"' then (strChars [] rest).map (fun p => (Json.str p.1, p.2))
      else if c = '[' then
        match skipWs rest with
        | ']' :: r => some (Json.arr [], r)
        | r => (parseElems fuel r).map (fun p => (Json.arr p.1, p.2))
      else if c = lbrace then
        match skipWs rest with
        | d :: r => if d = rbrace then some (Json.obj [], r)
                    else (parseFields fuel (d :: r)).map (fun p => (Json.obj p.1, p.2))
        | [] => none
      else if c = '-' then
        match parseDigits rest with
        | some (n, r) => some (Json.num (-(n : Int)), r)
        | none => none
      else if c.isDigit then
        match parseDigits (c :: rest) with
        | some (n, r) => some (Json.num (n : Int), r)
        | none => none
      else
        match stripToken "null".data (c :: rest) with
        | some r => some (Json.null, r)
        | none =>
          match stripToken "true".data (c :: rest) with
          | some r => some (Json.bool true, r)
          | none =>
            match stripToken "false".data (c :: rest) with
            | some r => some (Json.bool false, r)
            | none => none

/-- Comma-separated JSON values up to a closing bracket. -/
def parseElems : Nat → List Char → Option (List Json × List Char)
  | 0, _ => none
  | Nat.succ fuel, cs =>
    match parseVal fuel cs with
    | none => none
    | some (v, r) =>
      match skipWs r with
      | ',' :: r2 =>
        match parseElems fuel r2 with
        | some (vs, r3) => some (v :: vs, r3)
        | none => none
      | ']' :: r2 => some ([v], r2)
      | _ => none

/-- Comma-separated `"key": value` pairs up to a closing brace. -/
def parseFields : Nat → List Char → Option (List (String × Json) × List Char)
  | 0, _ => none
  | Nat.succ fuel, cs =>
    match skipWs cs with
    | '\"' :: r =>
      match strChars [] r with
      | none => none
      | some (k, r2) =>
        match skipWs r2 with
        | ':' :: r3 =>
          match parseVal fuel r3 with
          | none => none
          | some (v, r4) =>
            match skipWs r4 with
            | ',' :: r5 =>
              match parseFields fuel r5 with
              | some (fs, r6) => some ((k, v) :: fs, r6)
              | none => none
            | d :: r5 => if d = rbrace then some ([(k, v)], r5) else none
            | [] => none
        | _ => none
    | _ => none

end

/-- Python `json.loads` on the document subset: parse one value and require
only whitespace to remain; raises `ValueError` otherwise. -/
def loads (s : String) : Except PyErr Json :=
  match parseVal (s.length + 1) s.data with
  | some (j, rest) =>
    if (skipWs rest).isEmpty then Except.ok j
    else Except.error (PyErr.valueError "Extra data")
  | none => Except.error (PyErr.valueError "Expecting value")

mutual

/-- Python `json.dumps` with its default separators; string escaping is
elided (no claim depends on the escaped text). -/
def Json.dumps : Json → String
  | Json.null => "null"
  | Json.bool true => "true"
  | Json.bool false => "false"
  | Json.num n => toString n
  | Json.str s => "\"" ++ s ++ "\""
  | Json.arr xs => "[" ++ Json.dumpsElems xs ++ "]"
  | Json.obj fs => String.mk [lbrace] ++ Json.dumpsFields fs ++ String.mk [rbrace]

/-- Serialize array elements, separated by `, `. -/
def Json.dumpsElems : List Json → String
  | [] => ""
  | [x] => Json.dumps x
  | x :: y :: xs => Json.dumps x ++ ", " ++ Json.dumpsElems (y :: xs)

/-- Serialize object fields, separated by `, `, keys quoted, `: ` before
each value. -/
def Json.dumpsFields : List (String × Json) → String
  | [] => ""
  | [(k, v)] => "\"" ++ k ++ "\": " ++ Json.dumps v
  | (k, v) :: f :: fs => "\"" ++ k ++ "\": " ++ Json.dumps v ++ ", " ++ Json.dumpsFields (f :: fs)

end

/-- Field lookup on a JSON object (`j["k"]`-style access used in assertions). -/
def Json.getField : Json → String → Option Json
  | Json.obj fields, k => fields.lookup k
  | _, _ => none

/-- Index into a JSON array. -/
def Json.index : Json → Nat → Option Json
  | Json.arr xs, i => xs.get? i
  | _, _ => none

/-- An API Gateway response dict as built by the handlers.  The Python code
serializes the body with `json.dumps` at construction; the embedding keeps the
structured value (so body fields remain statable) and exposes the serialized
transport form through `toEnvelope`. -/
structure Response where
  statusCode : Int
  headers : List (String × String)
  body : Json

/-- The transport envelope actually returned over the wire: the body is the
`json.dumps` serialization of the structured body. -/
structure Envelope where
  statusCode : Int
  headers : List (String × String)
  body : String

/-- Apply the `json.dumps` serialization the Python handlers perform inside
`success_response` / `error_response`. -/
def toEnvelope (r : Response) : Envelope :=
  { statusCode := r.statusCode, headers := r.headers, body := Json.dumps r.body }

/-- The `success_response(body)` helper, defined identically in the Encounter handler
(handler.py:213-230) and the Observation handler (handler.py:278-295). -/
def success_response (body : Json) : Response :=
  { statusCode := 200
    headers := [("Content-Type", "application/fhir+json"),
                ("Cache-Control", "no-cache, no-store, must-revalidate")]
    body := body }

/-- The `error_response(status_code, message)` helper, defined identically in the
Encounter handler (handler.py:233-263) and the Observation handler
(handler.py:298-328): a single-issue OperationOutcome whose issue code is
`processing` for 5xx, `not-found` for 404, and `invalid` otherwise. -/
def error_response (status_code : Int) (message : String) : Response :=
  { statusCode := status_code
    headers := [("Content-Type", "application/fhir+json")]
    body := Json.obj
      [("resourceType", Json.str "OperationOutcome"),
       ("issue", Json.arr
         [Json.obj
           [("severity", Json.str "error"),
            ("code", Json.str
              (if status_code ≥ 500 then "processing"
               else if status_code = 404 then "not-found"
               else "invalid")),
            ("diagnostics", Json.str message)]])] }

/-- Access a field of `issue[0]` of an OperationOutcome response body. -/
def issueField (r : Response) (k : String) : Option Json :=
  ((r.body.getField "issue").bind (fun j => j.index 0)).bind (fun j => j.getField k)

/-- The `parse_record(record)` helper, defined identically in the Encounter handler
(handler.py:198-210) and the Observation handler (handler.py:263-275):
`json.loads` the value if it is a Python string, otherwise return it as is. -/
def parse_record (record : Json) : Except PyErr Json :=
  match record with
  | Json.str s => loads s
  | r => Except.ok r

/-- The Result Mapper step of the search loop, claim-level view: decode each
row document via `parse_record` and wrap it as `{"resource": record}`,
preserving order; the first failure aborts (the Python loop raises). -/
def mapPage : List Json → Except PyErr (List Json)
  | [] => Except.ok []
  | d :: rest =>
    match parse_record d with
    | Except.error e => Except.error e
    | Except.ok r =>
      match mapPage rest with
      | Except.error e => Except.error e
      | Except.ok tail => Except.ok (Json.obj [("resource", r)] :: tail)

/-- The `for row in results:` loop of both search handlers
(encounter handler.py:164-167, observation handler.py:179-182): fetch
`row["RECORD_CONTENT"]`, parse it, and append `{"resource": record}`. -/
def buildEntries : List Row → Except PyErr (List Json)
  | [] => Except.ok []
  | row :: rest =>
    match rowGet row "RECORD_CONTENT" with
    | Except.error e => Except.error e
    | Except.ok rc =>
      match parse_record rc with
      | Except.error e => Except.error e
      | Except.ok record =>
        match buildEntries rest with
        | Except.error e => Except.error e
        | Except.ok tail => Except.ok (Json.obj [("resource", record)] :: tail)

/-- One `if <filter>:` block of the condition builders: when the filter value
is truthy, emit the (conditions, bound values) of that block; otherwise nothing. -/
def ifTruthy (v : Option String) (f : String → List String × List String) :
    List String × List String :=
  match v with
  | none => ([], [])
  | some s => if s = "" then ([], []) else f s

/-- Concatenate the per-filter (conditions, bound values) blocks in order,
mirroring the successive `conditions.append` / `query_params.append` calls. -/
def combine (blocks : List (List String × List String)) : List String × List String :=
  blocks.foldr (fun b acc => (b.1 ++ acc.1, b.2 ++ acc.2)) ([], [])

/-- The `where_clause` construction shared by both search handlers: empty when
there are no conditions, otherwise `WHERE` plus the `AND`-joined conditions. -/
def whereClauseOf (conditions : List String) : String :=
  if conditions.isEmpty then "" else "WHERE " ++ String.intercalate " AND " conditions

/-- The count-query execution and `TOTAL` extraction shared by both search
handlers: run the count statement with the pre-pagination bound values
(`None` when there are none), then `count_results[0]["TOTAL"]` if any row
came back, else `0`. -/
def totalOf (exec : Executor) (count_sql : String) (query_params : List String) :
    Except PyErr Json :=
  match exec count_sql (if query_params.isEmpty then none else some query_params) with
  | Except.error e => Except.error e
  | Except.ok [] => Except.ok (Json.num 0)
  | Except.ok (row :: _) => rowGet row "TOTAL"

/-- The inbound Lambda event: only the fields the handlers read.  (The
handlers also read and discard `httpMethod`.)  `none` covers both an absent
key and an explicit `None`, which `event.get(...) or {}` treats alike. -/
structure Event where
  pathParameters : Option Params
  queryStringParameters : Option Params

/-- The number of keys of `keys` that are present in `params` with a truthy
(non-empty) value — the quantity the condition builders actually key off. -/
def countTruthy (keys : List String) (params : Params) : Nat :=
  (keys.filter (fun k => truthy (params.lookup k))).length

namespace Encounter

/-- The search parameters of the Encounter handler that feed predicates, in
the order its `if` blocks test them. -/
def searchKeys : List String := ["patient", "status", "date", "class"]

/-- The condition-building section of `search_encounters`
(handler.py:100-132): one block per supported filter, each appending one
condition and one bound value when the filter is truthy. -/
def buildConditions (params : Params) : List String × List String :=
  let patient_id := params.lookup "patient"
  let status := params.lookup "status"
  let date := params.lookup "date"
  let encounter_class := params.lookup "class"
  combine
    [ifTruthy patient_id
       (fun s => (["RECORD_CONTENT:subject.reference::string LIKE %s"],
                  ["%Patient/" ++ s ++ "%"])),
     ifTruthy status
       (fun s => (["RECORD_CONTENT:status::string = %s"], [s])),
     ifTruthy date
       (fun s => (["RECORD_CONTENT:period.start::string LIKE %s"], [s ++ "%"])),
     ifTruthy encounter_class
       (fun s => (["RECORD_CONTENT:class.code::string = %s"], [s]))]

/-- The `count_sql` statement of `search_encounters` (handler.py:140). -/
def count_sqlOf (conditions : List String) : String :=
  "SELECT COUNT(*) as total FROM RAW.ENCOUNTERS " ++ whereClauseOf conditions

/-- The paginated fetch statement of `search_encounters` (handler.py:143-149),
ordered by `period.start` descending. -/
def pageSqlOf (conditions : List String) : String :=
  "\n    SELECT RECORD_CONTENT\n    FROM RAW.ENCOUNTERS\n    " ++ whereClauseOf conditions ++
    "\n    ORDER BY RECORD_CONTENT:period.start::string DESC\n    LIMIT %s OFFSET %s\n    "

/-- The single-encounter lookup statement (handler.py:56-61). -/
def getSql : String :=
  "\n    SELECT RECORD_CONTENT\n    FROM RAW.ENCOUNTERS\n    WHERE RECORD_CONTENT:id::string = %s\n    LIMIT 1\n    "

/-- The `get_encounter(encounter_id)` handler (handler.py:44-76): fetch one row by id,
404 when none, otherwise parse and return the document; failures re-raise. -/
def get_encounter (exec : Executor) (encounter_id : String) : Except PyErr Response :=
  match exec getSql (some [encounter_id]) with
  | Except.error e => Except.error e
  | Except.ok [] => Except.ok (error_response 404 "Encounter not found")
  | Except.ok (row :: _) =>
    match rowGet row "RECORD_CONTENT" with
    | Except.error e => Except.error e
    | Except.ok record =>
      match parse_record record with
      | Except.error e => Except.error e
      | Except.ok response_body => Except.ok (success_response response_body)

/-- The `search_encounters(params)` handler (handler.py:79-180): normalize pagination
(400 on failure, before any query), build the filter conditions, run the count
query then the page query, map the rows and wrap them in a searchset Bundle. -/
def search_encounters (exec : Executor) (params : Params) : Except PyErr Response :=
  match pagination params with
  | none => Except.ok (error_response 400 "Invalid pagination parameters")
  | some (count, offset) =>
    let cq := buildConditions params
    let full_params := cq.2 ++ [toString count, toString offset]
    match totalOf exec (count_sqlOf cq.1) cq.2 with
    | Except.error e => Except.error e
    | Except.ok total =>
      match exec (pageSqlOf cq.1) (some full_params) with
      | Except.error e => Except.error e
      | Except.ok results =>
        match buildEntries results with
        | Except.error e => Except.error e
        | Except.ok encounters =>
          Except.ok (success_response (Json.obj
            [("resourceType", Json.str "Bundle"),
             ("type", Json.str "searchset"),
             ("total", total),
             ("entry", Json.arr encounters)]))

/-- The `lambda_handler(event, context)` entry point (handler.py:21-41): route by the
truthiness of `encounterId`, and convert any raised exception into a generic
500 OperationOutcome. -/
def lambda_handler (exec : Executor) (event : Event) : Response :=
  let path_params := event.pathParameters.getD []
  let query_params := event.queryStringParameters.getD []
  let result : Except PyErr Response :=
    match path_params.lookup "encounterId" with
    | some eid => if eid = "" then search_encounters exec query_params
                  else get_encounter exec eid
    | none => search_encounters exec query_params
  match result with
  | Except.ok r => r
  | Except.error _ => error_response 500 "Internal Server Error"

end Encounter

namespace Observation

/-- The search parameters of the Observation handler that feed predicates, in
the order its `if` blocks test them. -/
def searchKeys : List String := ["patient", "code", "date", "category", "status"]

/-- The `if code:` block of `search_observations` (handler.py:122-134):
comma-split the value and strip each token; one token yields a single
equality condition, more yield a parenthesized `OR` of equalities with all
tokens bound in order. -/
def codeCondition (code : String) : List String × List String :=
  let codes := (pySplitComma code).map pyStrip
  if codes.length = 1 then
    (["RECORD_CONTENT:code.coding[0].code::string = %s"], codes)
  else
    (["(" ++ String.intercalate " OR "
        (codes.map (fun _ => "RECORD_CONTENT:code.coding[0].code::string = %s")) ++ ")"],
     codes)

/-- The condition-building section of `search_observations`
(handler.py:100-147). -/
def buildConditions (params : Params) : List String × List String :=
  let patient_id := params.lookup "patient"
  let code := params.lookup "code"
  let date := params.lookup "date"
  let category := params.lookup "category"
  let status := params.lookup "status"
  combine
    [ifTruthy patient_id
       (fun s => (["RECORD_CONTENT:subject.reference::string LIKE %s"],
                  ["%Patient/" ++ s ++ "%"])),
     ifTruthy code codeCondition,
     ifTruthy date
       (fun s => (["RECORD_CONTENT:effectiveDateTime::string LIKE %s"], [s ++ "%"])),
     ifTruthy category
       (fun s => (["RECORD_CONTENT:category[0].coding[0].code::string = %s"], [s])),
     ifTruthy status
       (fun s => (["RECORD_CONTENT:status::string = %s"], [s]))]

/-- The `count_sql` statement of `search_observations` (handler.py:155). -/
def count_sqlOf (conditions : List String) : String :=
  "SELECT COUNT(*) as total FROM RAW.OBSERVATIONS " ++ whereClauseOf conditions

/-- The paginated fetch statement of `search_observations`
(handler.py:158-164), ordered by `effectiveDateTime` descending. -/
def pageSqlOf (conditions : List String) : String :=
  "\n    SELECT RECORD_CONTENT\n    FROM RAW.OBSERVATIONS\n    " ++ whereClauseOf conditions ++
    "\n    ORDER BY RECORD_CONTENT:effectiveDateTime::string DESC\n    LIMIT %s OFFSET %s\n    "

/-- The single-observation lookup statement (handler.py:56-61). -/
def getSql : String :=
  "\n    SELECT RECORD_CONTENT\n    FROM RAW.OBSERVATIONS\n    WHERE RECORD_CONTENT:id::string = %s\n    LIMIT 1\n    "

/-- The `get_observation(observation_id)` handler (handler.py:44-76). -/
def get_observation (exec : Executor) (observation_id : String) : Except PyErr Response :=
  match exec getSql (some [observation_id]) with
  | Except.error e => Except.error e
  | Except.ok [] => Except.ok (error_response 404 "Observation not found")
  | Except.ok (row :: _) =>
    match rowGet row "RECORD_CONTENT" with
    | Except.error e => Except.error e
    | Except.ok record =>
      match parse_record record with
      | Except.error e => Except.error e
      | Except.ok response_body => Except.ok (success_response response_body)

/-- The `search_observations(params)` handler (handler.py:79-195). -/
def search_observations (exec : Executor) (params : Params) : Except PyErr Response :=
  match pagination params with
  | none => Except.ok (error_response 400 "Invalid pagination parameters")
  | some (count, offset) =>
    let cq := buildConditions params
    let full_params := cq.2 ++ [toString count, toString offset]
    match totalOf exec (count_sqlOf cq.1) cq.2 with
    | Except.error e => Except.error e
    | Except.ok total =>
      match exec (pageSqlOf cq.1) (some full_params) with
      | Except.error e => Except.error e
      | Except.ok results =>
        match buildEntries results with
        | Except.error e => Except.error e
        | Except.ok observations =>
          Except.ok (success_response (Json.obj
            [("resourceType", Json.str "Bundle"),
             ("type", Json.str "searchset"),
             ("total", total),
             ("entry", Json.arr observations)]))

/-- The `lambda_handler(event, context)` entry point (handler.py:21-41). -/
def lambda_handler (exec : Executor) (event : Event) : Response :=
  let path_params := event.pathParameters.getD []
  let query_params := event.queryStringParameters.getD []
  let result : Except PyErr Response :=
    match path_params.lookup "observationId" with
    | some oid => if oid = "" then search_observations exec query_params
                  else get_observation exec oid
    | none => search_observations exec query_params
  match result with
  | Except.ok r => r
  | Except.error _ => error_response 500 "Internal Server Error"

end Observation

namespace Patient

/-- The single-patient lookup statement (patient handler.py:27). -/
def sql : String :=
  "SELECT RECORD_CONTENT FROM RAW.PATIENTS WHERE RECORD_CONTENT:id::string = %s LIMIT 1"

/-- The body of the Patient `lambda_handler` try-block after the id check
(patient handler.py:25-63): query by id, 404 with a plain error object when
no row matches, otherwise decode a string document and return it. -/
def fetch (exec : Executor) (patient_id : String) : Except PyErr Response :=
  match exec sql (some [patient_id]) with
  | Except.error e => Except.error e
  | Except.ok [] =>
    Except.ok { statusCode := 404, headers := [],
                body := Json.obj [("error", Json.str "Patient not found")] }
  | Except.ok (row :: _) =>
    match rowGet row "RECORD_CONTENT" with
    | Except.error e => Except.error e
    | Except.ok record =>
      let decoded : Except PyErr Json :=
        match record with
        | Json.str s => loads s
        | r => Except.ok r
      match decoded with
      | Except.error e => Except.error e
      | Except.ok response_body =>
        Except.ok { statusCode := 200, headers := [("Content-Type", "application/json")],
                    body := response_body }

/-- The `lambda_handler(event, context)` entry point of the Patient handler
(patient handler.py:8-70): 400 on a missing/empty `patientId`, plain
`{"error": "Internal Server Error"}` 500 on any raised exception. -/
def lambda_handler (exec : Executor) (event : Event) : Response :=
  let path_params := event.pathParameters.getD []
  match path_params.lookup "patientId" with
  | none => { statusCode := 400, headers := [],
              body := Json.obj [("error", Json.str "Missing patientId in path parameters")] }
  | some pid =>
    if pid = "" then
      { statusCode := 400, headers := [],
        body := Json.obj [("error", Json.str "Missing patientId in path parameters")] }
    else
      match fetch exec pid with
      | Except.ok r => r
      | Except.error _ =>
        { statusCode := 500, headers := [],
          body := Json.obj [("error", Json.str "Internal Server Error")] }

end Patient

lemma pyIntParam_eq_none_iff (params : Params) (key : String) (dflt : Int) :
    pyIntParam params key dflt = none ↔
      ∃ s, params.lookup key = some s ∧ pyInt s = none := by
  unfold pyIntParam
  cases h : params.lookup key <;> simp [h]

lemma pagination_none_iff (params : Params) :
    pagination params = none ↔
      pyIntParam params "_count" 100 = none ∨ pyIntParam params "_offset" 0 = none := by
  unfold pagination
  cases hc : pyIntParam params "_count" 100 <;>
    cases ho : pyIntParam params "_offset" 0 <;> simp [hc, ho]

lemma pagination_some_elim (params : Params) (c o : Int)
    (h : pagination params = some (c, o)) :
    ∃ cv, pyIntParam params "_count" 100 = some cv ∧ c = min cv 1000 ∧
      pyIntParam params "_offset" 0 = some o := by
  unfold pagination at h
  cases hc : pyIntParam params "_count" 100 with
  | none => rw [hc] at h; exact absurd h (by simp)
  | some cv =>
    cases ho : pyIntParam params "_offset" 0 with
    | none => rw [hc, ho] at h; exact absurd h (by simp)
    | some ov =>
      rw [hc, ho] at h
      have hpair : min cv 1000 = c ∧ ov = o := by
        have := Option.some.inj h
        exact ⟨congrArg Prod.fst this, congrArg Prod.snd this⟩
      exact ⟨cv, rfl, hpair.1.symm, by rw [hpair.2]⟩

/-- Claim C1: for every search request, `count = min(parseOrDefault(rawCount,
100), 1000)` — an integer `_count ≥ 1000` normalizes to 1000, an integer
below 1000 (negative values included, no floor at 0) is kept unchanged, and
an absent `_count` yields 100; `offset = parseOrDefault(rawOffset, 0)` with
no upper bound; and normalization fails exactly when a supplied value does
not parse as a base-10 integer. -/
theorem pagination_count_offset_normalization (params : Params) :
    (pagination params = none ↔
       (∃ s, params.lookup "_count" = some s ∧ pyInt s = none) ∨
       (∃ s, params.lookup "_offset" = some s ∧ pyInt s = none))
  ∧ (∀ c o, pagination params = some (c, o) →
       ∃ cv, pyIntParam params "_count" 100 = some cv ∧ c = min cv 1000 ∧
         pyIntParam params "_offset" 0 = some o)
  ∧ (params.lookup "_count" = none →
       ∀ c o, pagination params = some (c, o) → c = 100)
  ∧ (∀ s n, params.lookup "_count" = some s → pyInt s = some n →
       ∀ c o, pagination params = some (c, o) →
         (1000 ≤ n → c = 1000) ∧ (n < 1000 → c = n)) := by
  refine ⟨?_, pagination_some_elim params, ?_, ?_⟩
  · rw [pagination_none_iff, pyIntParam_eq_none_iff, pyIntParam_eq_none_iff]
  · intro hnone c o h
    obtain ⟨cv, hcv, hc, -⟩ := pagination_some_elim params c o h
    have : pyIntParam params "_count" 100 = some 100 := by simp [pyIntParam, hnone]
    rw [this] at hcv
    have : cv = 100 := (Option.some.inj hcv).symm
    subst this
    simpa using hc
  · intro s n hs hn c o h
    obtain ⟨cv, hcv, hc, -⟩ := pagination_some_elim params c o h
    have : pyIntParam params "_count" 100 = some n := by simp [pyIntParam, hs, hn]
    rw [this] at hcv
    have : cv = n := (Option.some.inj hcv).symm
    subst this
    constructor
    · intro hge
      rw [hc]
      exact min_eq_right hge
    · intro hlt
      rw [hc]
      exact min_eq_left (le_of_lt hlt)

theorem pagination_count_offset_normalization_witness :
    pagination [("_count", "2000"), ("_offset", "7")] = some (1000, 7) ∧
    (1000 : Int) = 1000 := by
  have h := pagination_count_offset_normalization [("_count", "2000"), ("_offset", "7")]
  exact ⟨by decide, ((h.2.2.2 "2000" 2000 (by decide) (by decide) 1000 7 (by decide)).1 (by norm_num))⟩

/-- Claim C6: a search whose `_count` or `_offset` is supplied but not
parseable as an integer yields a 400 response with issue code `invalid` and
diagnostics containing "Invalid pagination", for every executor — in
particular for executors that fail on any call, showing no query executes
before the error is returned. -/
theorem invalid_pagination_rejects_before_query (params : Params)
    (h : (∃ s, params.lookup "_count" = some s ∧ pyInt s = none) ∨
         (∃ s, params.lookup "_offset" = some s ∧ pyInt s = none)) :
    (∀ exec, Encounter.search_encounters exec params =
       Except.ok (error_response 400 "Invalid pagination parameters"))
  ∧ (∀ exec, Observation.search_observations exec params =
       Except.ok (error_response 400 "Invalid pagination parameters"))
  ∧ (∀ exec, Encounter.lambda_handler exec ⟨none, some params⟩ =
       error_response 400 "Invalid pagination parameters")
  ∧ (∀ exec, Observation.lambda_handler exec ⟨none, some params⟩ =
       error_response 400 "Invalid pagination parameters")
  ∧ (error_response 400 "Invalid pagination parameters").statusCode = 400
  ∧ issueField (error_response 400 "Invalid pagination parameters") "code" =
      some (Json.str "invalid")
  ∧ (∃ suf, issueField (error_response 400 "Invalid pagination parameters") "diagnostics" =
      some (Json.str ("Invalid pagination" ++ suf))) := by
  have hp : pagination params = none := by
    rw [pagination_none_iff]
    cases h with
    | inl hc => exact Or.inl ((pyIntParam_eq_none_iff params "_count" 100).mpr hc)
    | inr ho => exact Or.inr ((pyIntParam_eq_none_iff params "_offset" 0).mpr ho)
  refine ⟨?_, ?_, ?_, ?_, rfl, rfl, ⟨" parameters", rfl⟩⟩
  · intro exec; simp [Encounter.search_encounters, hp]
  · intro exec; simp [Observation.search_observations, hp]
  · intro exec; simp [Encounter.lambda_handler, Encounter.search_encounters, hp]
  · intro exec; simp [Observation.lambda_handler, Observation.search_observations, hp]

theorem invalid_pagination_rejects_before_query_witness :
    (∃ s, ([("_count", "abc")] : Params).lookup "_count" = some s ∧ pyInt s = none) ∧
    (∀ exec, Encounter.search_encounters exec [("_count", "abc")] =
       Except.ok (error_response 400 "Invalid pagination parameters")) := by
  have h := invalid_pagination_rejects_before_query [("_count", "abc")]
    (Or.inl ⟨"abc", rfl, by decide⟩)
  exact ⟨⟨"abc", rfl, by decide⟩, h.1⟩

/-- Claim C2 counterexample: for the Observation `code` value `"a,"` the list
of trimmed non-empty tokens is `["a"]` (exactly one token), so the claim
demands a single EXACT predicate bound to `"a"`; the code instead splits
without dropping empty tokens and emits an OR-of-equals over two bound
values, the second of which is the empty string. -/
theorem code_filter_tokens_counterexample :
    ((pySplitComma "a,").map pyStrip).filter (fun t => t ≠ "") = ["a"]
  ∧ Observation.codeCondition "a," =
      (["(RECORD_CONTENT:code.coding[0].code::string = %s OR RECORD_CONTENT:code.coding[0].code::string = %s)"],
       ["a", ""])
  ∧ (Observation.codeCondition "a,").1 ≠ ["RECORD_CONTENT:code.coding[0].code::string = %s"]
  ∧ (Observation.codeCondition "a,").2 ≠ ["a"] := by
  refine ⟨by decide, rfl, by decide, by decide⟩

lemma map_const_replicate (frag : String) (l : List String) :
    l.map (fun _ => frag) = List.replicate l.length frag := by
  induction l with
  | nil => rfl
  | cons x xs ih => simp [List.replicate, ih]

/-- Claim C2 (amended): the Observation `code` value is comma-split into
trimmed tokens with empty tokens retained; when that list has exactly one
token one EXACT equality predicate is emitted bound to it, and when it has
N ≥ 2 tokens (empty ones included) exactly one OR-of-equals predicate is
emitted carrying all N tokens as bound values in their original order. -/
theorem code_filter_or_expansion (code : String) :
    (((pySplitComma code).map pyStrip).length = 1 →
       ∃ c0, (pySplitComma code).map pyStrip = [c0] ∧
         Observation.codeCondition code =
           (["RECORD_CONTENT:code.coding[0].code::string = %s"], [c0]))
  ∧ (2 ≤ ((pySplitComma code).map pyStrip).length →
       Observation.codeCondition code =
         (["(" ++ String.intercalate " OR "
             (List.replicate ((pySplitComma code).map pyStrip).length
               "RECORD_CONTENT:code.coding[0].code::string = %s") ++ ")"],
          (pySplitComma code).map pyStrip)) := by
  constructor
  · intro h1
    obtain ⟨c0, hc⟩ := List.length_eq_one.mp h1
    refine ⟨c0, hc, ?_⟩
    simp only [Observation.codeCondition, hc]
    rfl
  · intro h2
    have hne : ¬ ((pySplitComma code).map pyStrip).length = 1 := by omega
    simp only [Observation.codeCondition, if_neg hne, map_const_replicate]

theorem code_filter_or_expansion_witness :
    ((pySplitComma "2339-0,8867-4").map pyStrip).length = 2 ∧
    Observation.codeCondition "2339-0,8867-4" =
      (["(RECORD_CONTENT:code.coding[0].code::string = %s OR RECORD_CONTENT:code.coding[0].code::string = %s)"],
       ["2339-0", "8867-4"]) := by
  have h := (code_filter_or_expansion "2339-0,8867-4").2 (by decide)
  exact ⟨by decide, by rw [h]; rfl⟩

/-- Claim C3 counterexample: with the Encounter filter mapping
`{"status": ""}` the key `status` is present and maps to a known search
field, but the truthiness test in the handler skips empty values, so zero
predicates are emitted while the claim demands one. -/
theorem predicate_count_counterexample :
    (Encounter.searchKeys.filter
        (fun k => (([("status", "")] : Params).lookup k).isSome)).length = 1
  ∧ (Encounter.buildConditions [("status", "")]).1.length = 0
  ∧ (Encounter.buildConditions [("status", "")]).1.length ≠
      (Encounter.searchKeys.filter
        (fun k => (([("status", "")] : Params).lookup k).isSome)).length := by
  refine ⟨by decide, rfl, by decide⟩

lemma ifTruthy_fst_length (v : Option String) (f : String → List String × List String)
    (hf : ∀ s, (f s).1.length = 1) :
    (ifTruthy v f).1.length = if truthy v then 1 else 0 := by
  cases v with
  | none => simp [ifTruthy, truthy]
  | some s =>
    by_cases h : s = ""
    · simp [ifTruthy, truthy, h]
    · simp [ifTruthy, truthy, h, hf]

lemma codeCondition_fst_length (s : String) : (Observation.codeCondition s).1.length = 1 := by
  simp only [Observation.codeCondition]
  split <;> rfl

lemma lookup_cons_ne {β : Type} (a k : String) (v : β) (l : List (String × β)) (h : a ≠ k) :
    List.lookup a ((k, v) :: l) = List.lookup a l := by
  simp [List.lookup, beq_eq_false_iff_ne.mpr h]

/-- Claim C3 (amended): the number of emitted predicate conditions equals the
number of filter keys present with a truthy (non-empty) value among the known
search fields of the resource type; keys with empty values and unknown keys
are silently ignored, contributing neither a predicate nor an error. -/
theorem predicate_count_truthy (params : Params) :
    (Encounter.buildConditions params).1.length = countTruthy Encounter.searchKeys params
  ∧ (Observation.buildConditions params).1.length = countTruthy Observation.searchKeys params
  ∧ (∀ k v, k ∉ Encounter.searchKeys →
       Encounter.buildConditions ((k, v) :: params) = Encounter.buildConditions params)
  ∧ (∀ k v, k ∉ Observation.searchKeys →
       Observation.buildConditions ((k, v) :: params) = Observation.buildConditions params) := by
  refine ⟨?_, ?_, ?_, ?_⟩
  · have e1 := ifTruthy_fst_length (params.lookup "patient")
      (fun s => (["RECORD_CONTENT:subject.reference::string LIKE %s"],
                 ["%Patient/" ++ s ++ "%"])) (fun _ => rfl)
    have e2 := ifTruthy_fst_length (params.lookup "status")
      (fun s => (["RECORD_CONTENT:status::string = %s"], [s])) (fun _ => rfl)
    have e3 := ifTruthy_fst_length (params.lookup "date")
      (fun s => (["RECORD_CONTENT:period.start::string LIKE %s"], [s ++ "%"])) (fun _ => rfl)
    have e4 := ifTruthy_fst_length (params.lookup "class")
      (fun s => (["RECORD_CONTENT:class.code::string = %s"], [s])) (fun _ => rfl)
    simp only [Encounter.buildConditions, combine, List.foldr, List.length_append,
      countTruthy, Encounter.searchKeys, List.filter_cons, List.filter_nil]
    rw [e1, e2, e3, e4]
    by_cases t1 : truthy (params.lookup "patient") <;>
    by_cases t2 : truthy (params.lookup "status") <;>
    by_cases t3 : truthy (params.lookup "date") <;>
    by_cases t4 : truthy (params.lookup "class") <;>
      simp [t1, t2, t3, t4]
  · have e1 := ifTruthy_fst_length (params.lookup "patient")
      (fun s => (["RECORD_CONTENT:subject.reference::string LIKE %s"],
                 ["%Patient/" ++ s ++ "%"])) (fun _ => rfl)
    have e2 := ifTruthy_fst_length (params.lookup "code")
      Observation.codeCondition codeCondition_fst_length
    have e3 := ifTruthy_fst_length (params.lookup "date")
      (fun s => (["RECORD_CONTENT:effectiveDateTime::string LIKE %s"], [s ++ "%"]))
      (fun _ => rfl)
    have e4 := ifTruthy_fst_length (params.lookup "category")
      (fun s => (["RECORD_CONTENT:category[0].coding[0].code::string = %s"], [s]))
      (fun _ => rfl)
    have e5 := ifTruthy_fst_length (params.lookup "status")
      (fun s => (["RECORD_CONTENT:status::string = %s"], [s])) (fun _ => rfl)
    simp only [Observation.buildConditions, combine, List.foldr, List.length_append,
      countTruthy, Observation.searchKeys, List.filter_cons, List.filter_nil]
    rw [e1, e2, e3, e4, e5]
    by_cases t1 : truthy (params.lookup "patient") <;>
    by_cases t2 : truthy (params.lookup "code") <;>
    by_cases t3 : truthy (params.lookup "date") <;>
    by_cases t4 : truthy (params.lookup "category") <;>
    by_cases t5 : truthy (params.lookup "status") <;>
      simp [t1, t2, t3, t4, t5]
  · intro k v hk
    simp only [Encounter.searchKeys, List.mem_cons, List.not_mem_nil, or_false, not_or] at hk
    obtain ⟨h1, h2, h3, h4⟩ := hk
    simp only [Encounter.buildConditions,
      lookup_cons_ne "patient" k v params (Ne.symm h1),
      lookup_cons_ne "status" k v params (Ne.symm h2),
      lookup_cons_ne "date" k v params (Ne.symm h3),
      lookup_cons_ne "class" k v params (Ne.symm h4)]
  · intro k v hk
    simp only [Observation.searchKeys, List.mem_cons, List.not_mem_nil, or_false, not_or] at hk
    obtain ⟨h1, h2, h3, h4, h5⟩ := hk
    simp only [Observation.buildConditions,
      lookup_cons_ne "patient" k v params (Ne.symm h1),
      lookup_cons_ne "code" k v params (Ne.symm h2),
      lookup_cons_ne "date" k v params (Ne.symm h3),
      lookup_cons_ne "category" k v params (Ne.symm h4),
      lookup_cons_ne "status" k v params (Ne.symm h5)]

theorem predicate_count_truthy_witness :
    ("note" ∉ Encounter.searchKeys) ∧
    Encounter.buildConditions [("note", "x"), ("status", "finished")] =
      Encounter.buildConditions [("status", "finished")] ∧
    (Encounter.buildConditions [("status", "finished")]).1.length =
      countTruthy Encounter.searchKeys [("status", "finished")] := by
  have h := predicate_count_truthy [("status", "finished")]
  exact ⟨by decide, h.2.2.1 "note" "x" (by decide), h.1⟩

/-- Claim C4: `error_response` produces an OperationOutcome whose single
issue has severity `error` always, and code `processing` when the status is
at least 500, `not-found` when it is 404, and `invalid` for every other
status code. -/
theorem operation_outcome_code_mapping (sc : Int) (msg : String) :
    issueField (error_response sc msg) "severity" = some (Json.str "error")
  ∧ issueField (error_response sc msg) "code" =
      some (Json.str (if sc ≥ 500 then "processing"
                      else if sc = 404 then "not-found" else "invalid"))
  ∧ (sc ≥ 500 → issueField (error_response sc msg) "code" = some (Json.str "processing"))
  ∧ (sc = 404 → issueField (error_response sc msg) "code" = some (Json.str "not-found"))
  ∧ (¬ sc ≥ 500 → sc ≠ 404 →
       issueField (error_response sc msg) "code" = some (Json.str "invalid")) := by
  have hbase : issueField (error_response sc msg) "code" =
      some (Json.str (if sc ≥ 500 then "processing"
                      else if sc = 404 then "not-found" else "invalid")) := rfl
  refine ⟨rfl, hbase, ?_, ?_, ?_⟩
  · intro h
    rw [hbase, if_pos h]
  · intro h
    subst h
    rw [hbase, if_neg (by norm_num), if_pos rfl]
  · intro h1 h2
    rw [hbase, if_neg h1, if_neg h2]

theorem operation_outcome_code_mapping_witness :
    ((503 : Int) ≥ 500 ∧
       issueField (error_response 503 "boom") "code" = some (Json.str "processing"))
  ∧ issueField (error_response 404 "gone") "code" = some (Json.str "not-found")
  ∧ (¬ (400 : Int) ≥ 500 ∧
       issueField (error_response 400 "bad") "code" = some (Json.str "invalid")) :=
  ⟨⟨by norm_num, (operation_outcome_code_mapping 503 "boom").2.2.1 (by norm_num)⟩,
   (operation_outcome_code_mapping 404 "gone").2.2.2.1 rfl,
   ⟨by norm_num,
    (operation_outcome_code_mapping 400 "bad").2.2.2.2 (by norm_num) (by norm_num)⟩⟩

lemma except_cases {α : Type} (x : Except PyErr α) :
    (∃ a, x = Except.ok a) ∨ (∃ e, x = Except.error e) := by
  cases x with
  | ok a => exact Or.inl ⟨a, rfl⟩
  | error e => exact Or.inr ⟨e, rfl⟩

lemma search_encounters_shape (exec : Executor) (params : Params) :
    Encounter.search_encounters exec params =
        Except.ok (error_response 400 "Invalid pagination parameters")
  ∨ (∃ b, Encounter.search_encounters exec params = Except.ok (success_response b))
  ∨ (∃ e, Encounter.search_encounters exec params = Except.error e) := by
  rcases hp : pagination params with _ | ⟨c, o⟩
  · left
    simp [Encounter.search_encounters, hp]
  · simp only [Encounter.search_encounters, hp]
    rcases except_cases (totalOf exec
        (Encounter.count_sqlOf (Encounter.buildConditions params).1)
        (Encounter.buildConditions params).2) with ⟨t, ht⟩ | ⟨e, he⟩
    · simp only [ht]
      rcases except_cases (exec (Encounter.pageSqlOf (Encounter.buildConditions params).1)
          (some ((Encounter.buildConditions params).2 ++ [toString c, toString o]))) with
        ⟨results, hr⟩ | ⟨e, he⟩
      · simp only [hr]
        rcases except_cases (buildEntries results) with ⟨entries, hent⟩ | ⟨e, he⟩
        · simp only [hent]
          exact Or.inr (Or.inl ⟨_, rfl⟩)
        · simp only [he]
          exact Or.inr (Or.inr ⟨e, rfl⟩)
      · simp only [he]
        exact Or.inr (Or.inr ⟨e, rfl⟩)
    · simp only [he]
      exact Or.inr (Or.inr ⟨e, rfl⟩)

lemma search_observations_shape (exec : Executor) (params : Params) :
    Observation.search_observations exec params =
        Except.ok (error_response 400 "Invalid pagination parameters")
  ∨ (∃ b, Observation.search_observations exec params = Except.ok (success_response b))
  ∨ (∃ e, Observation.search_observations exec params = Except.error e) := by
  rcases hp : pagination params with _ | ⟨c, o⟩
  · left
    simp [Observation.search_observations, hp]
  · simp only [Observation.search_observations, hp]
    rcases except_cases (totalOf exec
        (Observation.count_sqlOf (Observation.buildConditions params).1)
        (Observation.buildConditions params).2) with ⟨t, ht⟩ | ⟨e, he⟩
    · simp only [ht]
      rcases except_cases (exec (Observation.pageSqlOf (Observation.buildConditions params).1)
          (some ((Observation.buildConditions params).2 ++ [toString c, toString o]))) with
        ⟨results, hr⟩ | ⟨e, he⟩
      · simp only [hr]
        rcases except_cases (buildEntries results) with ⟨entries, hent⟩ | ⟨e, he⟩
        · simp only [hent]
          exact Or.inr (Or.inl ⟨_, rfl⟩)
        · simp only [he]
          exact Or.inr (Or.inr ⟨e, rfl⟩)
      · simp only [he]
        exact Or.inr (Or.inr ⟨e, rfl⟩)
    · simp only [he]
      exact Or.inr (Or.inr ⟨e, rfl⟩)

lemma get_encounter_shape (exec : Executor) (eid : String) :
    Encounter.get_encounter exec eid = Except.ok (error_response 404 "Encounter not found")
  ∨ (∃ b, Encounter.get_encounter exec eid = Except.ok (success_response b))
  ∨ (∃ e, Encounter.get_encounter exec eid = Except.error e) := by
  unfold Encounter.get_encounter
  rcases except_cases (exec Encounter.getSql (some [eid])) with ⟨rows, hr⟩ | ⟨e, he⟩
  · simp only [hr]
    cases rows with
    | nil => exact Or.inl rfl
    | cons row rest =>
      rcases except_cases (rowGet row "RECORD_CONTENT") with ⟨rc, hrc⟩ | ⟨e, he⟩
      · simp only [hrc]
        rcases except_cases (parse_record rc) with ⟨b, hb⟩ | ⟨e, he⟩
        · simp only [hb]
          exact Or.inr (Or.inl ⟨b, rfl⟩)
        · simp only [he]
          exact Or.inr (Or.inr ⟨e, rfl⟩)
      · simp only [he]
        exact Or.inr (Or.inr ⟨e, rfl⟩)
  · simp only [he]
    exact Or.inr (Or.inr ⟨e, rfl⟩)

lemma get_observation_shape (exec : Executor) (oid : String) :
    Observation.get_observation exec oid =
        Except.ok (error_response 404 "Observation not found")
  ∨ (∃ b, Observation.get_observation exec oid = Except.ok (success_response b))
  ∨ (∃ e, Observation.get_observation exec oid = Except.error e) := by
  unfold Observation.get_observation
  rcases except_cases (exec Observation.getSql (some [oid])) with ⟨rows, hr⟩ | ⟨e, he⟩
  · simp only [hr]
    cases rows with
    | nil => exact Or.inl rfl
    | cons row rest =>
      rcases except_cases (rowGet row "RECORD_CONTENT") with ⟨rc, hrc⟩ | ⟨e, he⟩
      · simp only [hrc]
        rcases except_cases (parse_record rc) with ⟨b, hb⟩ | ⟨e, he⟩
        · simp only [hb]
          exact Or.inr (Or.inl ⟨b, rfl⟩)
        · simp only [he]
          exact Or.inr (Or.inr ⟨e, rfl⟩)
      · simp only [he]
        exact Or.inr (Or.inr ⟨e, rfl⟩)
  · simp only [he]
    exact Or.inr (Or.inr ⟨e, rfl⟩)

lemma encounter_handler_cases (exec : Executor) (event : Event) :
    (∃ b, Encounter.lambda_handler exec event = success_response b)
  ∨ Encounter.lambda_handler exec event = error_response 400 "Invalid pagination parameters"
  ∨ Encounter.lambda_handler exec event = error_response 404 "Encounter not found"
  ∨ Encounter.lambda_handler exec event = error_response 500 "Internal Server Error" := by
  unfold Encounter.lambda_handler
  rcases hl : (event.pathParameters.getD []).lookup "encounterId" with _ | eid
  · rcases search_encounters_shape exec (event.queryStringParameters.getD []) with
      h | ⟨b, h⟩ | ⟨e, h⟩ <;> simp only [hl, h]
    · exact Or.inr (Or.inl trivial)
    · exact Or.inl ⟨b, rfl⟩
    · exact Or.inr (Or.inr (Or.inr trivial))
  · by_cases hemp : eid = ""
    · rcases search_encounters_shape exec (event.queryStringParameters.getD []) with
        h | ⟨b, h⟩ | ⟨e, h⟩ <;> simp only [hl, if_pos hemp, h]
      · exact Or.inr (Or.inl trivial)
      · exact Or.inl ⟨b, rfl⟩
      · exact Or.inr (Or.inr (Or.inr trivial))
    · rcases get_encounter_shape exec eid with h | ⟨b, h⟩ | ⟨e, h⟩ <;>
        simp only [hl, if_neg hemp, h]
      · exact Or.inr (Or.inr (Or.inl trivial))
      · exact Or.inl ⟨b, rfl⟩
      · exact Or.inr (Or.inr (Or.inr trivial))

lemma observation_handler_cases (exec : Executor) (event : Event) :
    (∃ b, Observation.lambda_handler exec event = success_response b)
  ∨ Observation.lambda_handler exec event = error_response 400 "Invalid pagination parameters"
  ∨ Observation.lambda_handler exec event = error_response 404 "Observation not found"
  ∨ Observation.lambda_handler exec event = error_response 500 "Internal Server Error" := by
  unfold Observation.lambda_handler
  rcases hl : (event.pathParameters.getD []).lookup "observationId" with _ | oid
  · rcases search_observations_shape exec (event.queryStringParameters.getD []) with
      h | ⟨b, h⟩ | ⟨e, h⟩ <;> simp only [hl, h]
    · exact Or.inr (Or.inl trivial)
    · exact Or.inl ⟨b, rfl⟩
    · exact Or.inr (Or.inr (Or.inr trivial))
  · by_cases hemp : oid = ""
    · rcases search_observations_shape exec (event.queryStringParameters.getD []) with
        h | ⟨b, h⟩ | ⟨e, h⟩ <;> simp only [hl, if_pos hemp, h]
      · exact Or.inr (Or.inl trivial)
      · exact Or.inl ⟨b, rfl⟩
      · exact Or.inr (Or.inr (Or.inr trivial))
    · rcases get_observation_shape exec oid with h | ⟨b, h⟩ | ⟨e, h⟩ <;>
        simp only [hl, if_neg hemp, h]
      · exact Or.inr (Or.inr (Or.inl trivial))
      · exact Or.inl ⟨b, rfl⟩
      · exact Or.inr (Or.inr (Or.inr trivial))

/-- Claim C10: for every inbound event and every executor behavior (including
raising an arbitrary exception), the Encounter and Observation
`lambda_handler`s return a transport envelope — the embedding is total, the
catch-all `except` turning any raised error into a response — whose
statusCode is one of 200, 400, 404 or 500, and whose envelope body is the
`json.dumps` serialization of the structured body. -/
theorem lambda_handler_total_envelope (exec : Executor) (event : Event) :
    ((Encounter.lambda_handler exec event).statusCode = 200 ∨
     (Encounter.lambda_handler exec event).statusCode = 400 ∨
     (Encounter.lambda_handler exec event).statusCode = 404 ∨
     (Encounter.lambda_handler exec event).statusCode = 500)
  ∧ ((Observation.lambda_handler exec event).statusCode = 200 ∨
     (Observation.lambda_handler exec event).statusCode = 400 ∨
     (Observation.lambda_handler exec event).statusCode = 404 ∨
     (Observation.lambda_handler exec event).statusCode = 500)
  ∧ (toEnvelope (Encounter.lambda_handler exec event)).body =
      Json.dumps (Encounter.lambda_handler exec event).body
  ∧ (toEnvelope (Observation.lambda_handler exec event)).body =
      Json.dumps (Observation.lambda_handler exec event).body := by
  refine ⟨?_, ?_, rfl, rfl⟩
  · rcases encounter_handler_cases exec event with ⟨b, h⟩ | h | h | h <;> rw [h]
    · exact Or.inl rfl
    · exact Or.inr (Or.inl rfl)
    · exact Or.inr (Or.inr (Or.inl rfl))
    · exact Or.inr (Or.inr (Or.inr rfl))
  · rcases observation_handler_cases exec event with ⟨b, h⟩ | h | h | h <;> rw [h]
    · exact Or.inl rfl
    · exact Or.inr (Or.inl rfl)
    · exact Or.inr (Or.inr (Or.inl rfl))
    · exact Or.inr (Or.inr (Or.inr rfl))

/-- Claim C5 counterexample: a Patient fetch matching zero rows returns 404
with the plain body `{"error": "Patient not found"}` — no `resourceType`
field, hence no OperationOutcome — and an Encounter single-resource fetch
that succeeds returns the bare resource (here `resourceType` `Encounter`),
not a Bundle; both contradict the claimed universal response shape. -/
theorem response_shape_counterexample :
    (Patient.lambda_handler (fun _ _ => Except.ok [])
        ⟨some [("patientId", "nope")], none⟩).statusCode = 404
  ∧ (Patient.lambda_handler (fun _ _ => Except.ok [])
        ⟨some [("patientId", "nope")], none⟩).body =
      Json.obj [("error", Json.str "Patient not found")]
  ∧ (Patient.lambda_handler (fun _ _ => Except.ok [])
        ⟨some [("patientId", "nope")], none⟩).body.getField "resourceType" = none
  ∧ (Encounter.lambda_handler
        (fun _ _ => Except.ok [[("RECORD_CONTENT",
          Json.obj [("resourceType", Json.str "Encounter")])]])
        ⟨some [("encounterId", "e1")], none⟩).statusCode = 200
  ∧ (Encounter.lambda_handler
        (fun _ _ => Except.ok [[("RECORD_CONTENT",
          Json.obj [("resourceType", Json.str "Encounter")])]])
        ⟨some [("encounterId", "e1")], none⟩).body.getField "resourceType" =
      some (Json.str "Encounter") :=
  ⟨rfl, rfl, rfl, rfl, rfl⟩

/-- Claim C5 (amended): every non-200 response of the Encounter and
Observation handlers is an OperationOutcome; their single-resource fetches
matching zero rows yield 404 with `resourceType` `OperationOutcome` and
`issue[0].code` `not-found`; the Patient handler instead answers such a fetch
with 404 and the plain JSON body `{"error": "Patient not found"}`. -/
theorem not_found_response_shapes :
    (∀ exec event, (Encounter.lambda_handler exec event).statusCode = 200 ∨
       (Encounter.lambda_handler exec event).body.getField "resourceType" =
         some (Json.str "OperationOutcome"))
  ∧ (∀ exec event, (Observation.lambda_handler exec event).statusCode = 200 ∨
       (Observation.lambda_handler exec event).body.getField "resourceType" =
         some (Json.str "OperationOutcome"))
  ∧ (∀ exec eid, exec Encounter.getSql (some [eid]) = Except.ok [] →
       Encounter.get_encounter exec eid =
           Except.ok (error_response 404 "Encounter not found")
         ∧ (error_response 404 "Encounter not found").statusCode = 404
         ∧ (error_response 404 "Encounter not found").body.getField "resourceType" =
             some (Json.str "OperationOutcome")
         ∧ issueField (error_response 404 "Encounter not found") "code" =
             some (Json.str "not-found"))
  ∧ (∀ exec oid, exec Observation.getSql (some [oid]) = Except.ok [] →
       Observation.get_observation exec oid =
           Except.ok (error_response 404 "Observation not found")
         ∧ (error_response 404 "Observation not found").statusCode = 404
         ∧ (error_response 404 "Observation not found").body.getField "resourceType" =
             some (Json.str "OperationOutcome")
         ∧ issueField (error_response 404 "Observation not found") "code" =
             some (Json.str "not-found"))
  ∧ (∀ exec pid, pid ≠ "" → exec Patient.sql (some [pid]) = Except.ok [] →
       (Patient.lambda_handler exec ⟨some [("patientId", pid)], none⟩).statusCode = 404
     ∧ (Patient.lambda_handler exec ⟨some [("patientId", pid)], none⟩).body =
         Json.obj [("error", Json.str "Patient not found")]) := by
  refine ⟨?_, ?_, ?_, ?_, ?_⟩
  · intro exec event
    rcases encounter_handler_cases exec event with ⟨b, h⟩ | h | h | h <;> rw [h]
    · exact Or.inl rfl
    all_goals exact Or.inr rfl
  · intro exec event
    rcases observation_handler_cases exec event with ⟨b, h⟩ | h | h | h <;> rw [h]
    · exact Or.inl rfl
    all_goals exact Or.inr rfl
  · intro exec eid h
    refine ⟨?_, rfl, rfl, rfl⟩
    unfold Encounter.get_encounter
    simp only [h]
  · intro exec oid h
    refine ⟨?_, rfl, rfl, rfl⟩
    unfold Observation.get_observation
    simp only [h]
  · intro exec pid hne h
    have hfetch : Patient.fetch exec pid =
        Except.ok { statusCode := 404, headers := [],
                    body := Json.obj [("error", Json.str "Patient not found")] } := by
      unfold Patient.fetch
      simp only [h]
    have hred : Patient.lambda_handler exec ⟨some [("patientId", pid)], none⟩ =
        { statusCode := 404, headers := [],
          body := Json.obj [("error", Json.str "Patient not found")] } := by
      simp [Patient.lambda_handler, List.lookup, hne, hfetch]
    rw [hred]
    exact ⟨rfl, rfl⟩

theorem not_found_response_shapes_witness :
    ((fun (_ : String) (_ : Option (List String)) =>
        (Except.ok [] : Except PyErr (List Row))) Encounter.getSql (some ["nope"]) =
      Except.ok [])
  ∧ Encounter.get_encounter (fun _ _ => Except.ok []) "nope" =
      Except.ok (error_response 404 "Encounter not found")
  ∧ issueField (error_response 404 "Encounter not found") "code" =
      some (Json.str "not-found") := by
  have h := not_found_response_shapes.2.2.1 (fun _ _ => Except.ok []) "nope" rfl
  exact ⟨rfl, h.1, h.2.2.2⟩

/-- Claim C7 counterexample: for the row document `"\"123\""` — a JSON string
whose decoded value is itself the Python string `"123"` — `parse_record`
yields `"123"`, but `parse_record` applied to the already-parsed value
re-parses it (the `isinstance(record, str)` branch fires again) and yields
the number 123, so the round-trip claimed for every JSON-string document
fails. -/
theorem parse_record_roundtrip_counterexample :
    loads "\"123\"" = Except.ok (Json.str "123")
  ∧ parse_record (Json.str "\"123\"") = Except.ok (Json.str "123")
  ∧ parse_record (Json.str "123") = Except.ok (Json.num 123)
  ∧ parse_record (Json.str "\"123\"") ≠ parse_record (Json.str "123") := by
  refine ⟨rfl, rfl, rfl, ?_⟩
  intro h
  rw [show parse_record (Json.str "\"123\"") = Except.ok (Json.str "123") from rfl,
      show parse_record (Json.str "123") = Except.ok (Json.num 123) from rfl] at h
  injection h with h2
  exact Json.noConfusion h2

/-- Claim C7 (amended): for every row document that is a JSON string decoding
to a non-string value, parsing is an idempotent round-trip — `parse_record`
of the string equals `parse_record` of the pre-parsed object, which is a
no-op — and mapping a page of such string documents equals mapping the same
page pre-parsed, element for element in order. -/
theorem parse_record_roundtrip_nonstring :
    (∀ s j, loads s = Except.ok j → (∀ t, j ≠ Json.str t) →
       parse_record (Json.str s) = Except.ok j ∧ parse_record j = Except.ok j)
  ∧ (∀ pairs : List (String × Json),
       (∀ p ∈ pairs, loads p.1 = Except.ok p.2 ∧ ∀ t, p.2 ≠ Json.str t) →
       mapPage (pairs.map (fun p => Json.str p.1)) =
         mapPage (pairs.map (fun p => p.2))) := by
  have single : ∀ j : Json, (∀ t, j ≠ Json.str t) → parse_record j = Except.ok j := by
    intro j hj
    cases j with
    | str t => exact absurd rfl (hj t)
    | null => rfl
    | bool b => rfl
    | num n => rfl
    | arr xs => rfl
    | obj fs => rfl
  constructor
  · intro s j hs hj
    exact ⟨hs, single j hj⟩
  · intro pairs hp
    induction pairs with
    | nil => rfl
    | cons p rest ih =>
      obtain ⟨h1, h2⟩ := hp p (List.mem_cons_self _ _)
      have hrest := ih (fun q hq => hp q (List.mem_cons_of_mem _ hq))
      simp only [List.map_cons, mapPage]
      rw [show parse_record (Json.str p.1) = Except.ok p.2 from h1,
          single p.2 h2, hrest]

theorem parse_record_roundtrip_nonstring_witness :
    loads "\x7b\"id\": \"e1\"\x7d" = Except.ok (Json.obj [("id", Json.str "e1")])
  ∧ parse_record (Json.str "\x7b\"id\": \"e1\"\x7d") =
      Except.ok (Json.obj [("id", Json.str "e1")])
  ∧ parse_record (Json.obj [("id", Json.str "e1")]) =
      Except.ok (Json.obj [("id", Json.str "e1")]) := by
  have h := parse_record_roundtrip_nonstring.1 "\x7b\"id\": \"e1\"\x7d"
    (Json.obj [("id", Json.str "e1")]) rfl (fun t ht => Json.noConfusion ht)
  exact ⟨rfl, h.1, h.2⟩

/-- Claim C8: a row document that is a string of invalid JSON fails the whole
request rather than being dropped — the mapping step raises on such a row —
and any raised search failure surfaces at the boundary as a response with
statusCode 500 whose diagnostics is exactly "Internal Server Error" (the
underlying parse-error message does not reach the body). -/
theorem malformed_document_internal_error :
    (∀ docs s m, Json.str s ∈ docs → loads s = Except.error m →
       ∃ e, mapPage docs = Except.error e)
  ∧ (∀ rows s m, (∃ row ∈ rows, row.lookup "RECORD_CONTENT" = some (Json.str s)) →
       loads s = Except.error m → ∃ e, buildEntries rows = Except.error e)
  ∧ (∀ exec params e, Encounter.search_encounters exec params = Except.error e →
       Encounter.lambda_handler exec ⟨none, some params⟩ =
         error_response 500 "Internal Server Error")
  ∧ (∀ exec params e, Observation.search_observations exec params = Except.error e →
       Observation.lambda_handler exec ⟨none, some params⟩ =
         error_response 500 "Internal Server Error")
  ∧ (error_response 500 "Internal Server Error").statusCode = 500
  ∧ issueField (error_response 500 "Internal Server Error") "diagnostics" =
      some (Json.str "Internal Server Error") := by
  refine ⟨?_, ?_, ?_, ?_, rfl, rfl⟩
  · intro docs s m hmem hbad
    induction docs with
    | nil => exact absurd hmem (List.not_mem_nil _)
    | cons d rest ih =>
      rcases List.mem_cons.mp hmem with rfl | htail
      · refine ⟨m, ?_⟩
        simp only [mapPage, show parse_record (Json.str s) = Except.error m from hbad]
      · rcases except_cases (parse_record d) with ⟨r, hr⟩ | ⟨e, he⟩
        · obtain ⟨e, he⟩ := ih htail
          refine ⟨e, ?_⟩
          simp only [mapPage, hr, he]
        · refine ⟨e, ?_⟩
          simp only [mapPage, he]
  · intro rows s m hmem hbad
    induction rows with
    | nil =>
      obtain ⟨row, hrow, -⟩ := hmem
      exact absurd hrow (List.not_mem_nil _)
    | cons row rest ih =>
      rcases except_cases (rowGet row "RECORD_CONTENT") with ⟨rc, hrc⟩ | ⟨e, he⟩
      · rcases except_cases (parse_record rc) with ⟨r, hr⟩ | ⟨e, he⟩
        · obtain ⟨row0, hrow0, hlook⟩ := hmem
          rcases List.mem_cons.mp hrow0 with rfl | htail
          · exfalso
            have : rc = Json.str s := by
              unfold rowGet at hrc
              rw [hlook] at hrc
              exact (Except.ok.inj hrc).symm
            rw [this] at hr
            rw [show parse_record (Json.str s) = loads s from rfl, hbad] at hr
            exact Except.noConfusion hr
          · obtain ⟨e, he⟩ := ih ⟨row0, htail, hlook⟩
            refine ⟨e, ?_⟩
            simp only [buildEntries, hrc, hr, he]
        · refine ⟨e, ?_⟩
          simp only [buildEntries, hrc, he]
      · refine ⟨e, ?_⟩
        simp only [buildEntries, he]
  · intro exec params e h
    simp [Encounter.lambda_handler, h]
  · intro exec params e h
    simp [Observation.lambda_handler, h]

theorem malformed_document_internal_error_witness :
    loads "\x7bbad" = Except.error (PyErr.valueError "Expecting value")
  ∧ (∃ e, mapPage [Json.str "\x7bbad"] = Except.error e)
  ∧ Encounter.lambda_handler
      (fun sql _ => if sql = Encounter.count_sqlOf [] then Except.ok [[("TOTAL", Json.num 1)]]
                    else Except.ok [[("RECORD_CONTENT", Json.str "\x7bbad")]])
      ⟨none, some []⟩ = error_response 500 "Internal Server Error" := by
  refine ⟨rfl, ?_, ?_⟩
  · exact malformed_document_internal_error.1 [Json.str "\x7bbad"] "\x7bbad"
      (PyErr.valueError "Expecting value") (List.mem_cons_self _ _) rfl
  · exact malformed_document_internal_error.2.2.1 _ []
      (PyErr.valueError "Expecting value") rfl

lemma search_encounters_ok_200 (exec : Executor) (params : Params) (r : Response)
    (h : Encounter.search_encounters exec params = Except.ok r) (h200 : r.statusCode = 200) :
    ∃ t, totalOf exec (Encounter.count_sqlOf (Encounter.buildConditions params).1)
        (Encounter.buildConditions params).2 = Except.ok t ∧
      r.body.getField "total" = some t := by
  rcases hp : pagination params with _ | ⟨c, o⟩
  · simp only [Encounter.search_encounters, hp] at h
    rw [← Except.ok.inj h] at h200
    simp [error_response] at h200
  · simp only [Encounter.search_encounters, hp] at h
    rcases except_cases (totalOf exec
        (Encounter.count_sqlOf (Encounter.buildConditions params).1)
        (Encounter.buildConditions params).2) with ⟨t, ht⟩ | ⟨e, he⟩
    · simp only [ht] at h
      rcases except_cases (exec (Encounter.pageSqlOf (Encounter.buildConditions params).1)
          (some ((Encounter.buildConditions params).2 ++ [toString c, toString o]))) with
        ⟨results, hr⟩ | ⟨e, he⟩
      · simp only [hr] at h
        rcases except_cases (buildEntries results) with ⟨entries, hent⟩ | ⟨e, he⟩
        · simp only [hent] at h
          refine ⟨t, ht, ?_⟩
          rw [← Except.ok.inj h]
          rfl
        · simp only [he] at h
          exact Except.noConfusion h
      · simp only [he] at h
        exact Except.noConfusion h
    · simp only [he] at h
      exact Except.noConfusion h

lemma search_observations_ok_200 (exec : Executor) (params : Params) (r : Response)
    (h : Observation.search_observations exec params = Except.ok r)
    (h200 : r.statusCode = 200) :
    ∃ t, totalOf exec (Observation.count_sqlOf (Observation.buildConditions params).1)
        (Observation.buildConditions params).2 = Except.ok t ∧
      r.body.getField "total" = some t := by
  rcases hp : pagination params with _ | ⟨c, o⟩
  · simp only [Observation.search_observations, hp] at h
    rw [← Except.ok.inj h] at h200
    simp [error_response] at h200
  · simp only [Observation.search_observations, hp] at h
    rcases except_cases (totalOf exec
        (Observation.count_sqlOf (Observation.buildConditions params).1)
        (Observation.buildConditions params).2) with ⟨t, ht⟩ | ⟨e, he⟩
    · simp only [ht] at h
      rcases except_cases (exec (Observation.pageSqlOf (Observation.buildConditions params).1)
          (some ((Observation.buildConditions params).2 ++ [toString c, toString o]))) with
        ⟨results, hr⟩ | ⟨e, he⟩
      · simp only [hr] at h
        rcases except_cases (buildEntries results) with ⟨entries, hent⟩ | ⟨e, he⟩
        · simp only [hent] at h
          refine ⟨t, ht, ?_⟩
          rw [← Except.ok.inj h]
          rfl
        · simp only [he] at h
          exact Except.noConfusion h
      · simp only [he] at h
        exact Except.noConfusion h
    · simp only [he] at h
      exact Except.noConfusion h

lemma encounter_buildConditions_agree (p1 p2 : Params)
    (hagree : ∀ k ∈ Encounter.searchKeys, p1.lookup k = p2.lookup k) :
    Encounter.buildConditions p1 = Encounter.buildConditions p2 := by
  have h1 := hagree "patient" (by simp [Encounter.searchKeys])
  have h2 := hagree "status" (by simp [Encounter.searchKeys])
  have h3 := hagree "date" (by simp [Encounter.searchKeys])
  have h4 := hagree "class" (by simp [Encounter.searchKeys])
  simp only [Encounter.buildConditions, h1, h2, h3, h4]

lemma observation_buildConditions_agree (p1 p2 : Params)
    (hagree : ∀ k ∈ Observation.searchKeys, p1.lookup k = p2.lookup k) :
    Observation.buildConditions p1 = Observation.buildConditions p2 := by
  have h1 := hagree "patient" (by simp [Observation.searchKeys])
  have h2 := hagree "code" (by simp [Observation.searchKeys])
  have h3 := hagree "date" (by simp [Observation.searchKeys])
  have h4 := hagree "category" (by simp [Observation.searchKeys])
  have h5 := hagree "status" (by simp [Observation.searchKeys])
  simp only [Observation.buildConditions, h1, h2, h3, h4, h5]

/-- Claim C9: for a fixed executor and fixed filter values, the `total`
reported in the result Bundle does not depend on `_count`/`_offset`: the
count statement and its bound parameters carry no pagination values, so two
successful searches whose parameter maps agree on all filter keys report the
same total. -/
theorem total_invariant_under_pagination :
    (∀ (exec : Executor) (p1 p2 : Params) (r1 r2 : Response),
       (∀ k ∈ Encounter.searchKeys, p1.lookup k = p2.lookup k) →
       Encounter.search_encounters exec p1 = Except.ok r1 → r1.statusCode = 200 →
       Encounter.search_encounters exec p2 = Except.ok r2 → r2.statusCode = 200 →
       r1.body.getField "total" = r2.body.getField "total")
  ∧ (∀ (exec : Executor) (p1 p2 : Params) (r1 r2 : Response),
       (∀ k ∈ Observation.searchKeys, p1.lookup k = p2.lookup k) →
       Observation.search_observations exec p1 = Except.ok r1 → r1.statusCode = 200 →
       Observation.search_observations exec p2 = Except.ok r2 → r2.statusCode = 200 →
       r1.body.getField "total" = r2.body.getField "total") := by
  constructor
  · intro exec p1 p2 r1 r2 hagree h1 h1s h2 h2s
    obtain ⟨t1, ht1, hg1⟩ := search_encounters_ok_200 exec p1 r1 h1 h1s
    obtain ⟨t2, ht2, hg2⟩ := search_encounters_ok_200 exec p2 r2 h2 h2s
    rw [encounter_buildConditions_agree p1 p2 hagree] at ht1
    have htt : t1 = t2 := Except.ok.inj (ht1.symm.trans ht2)
    rw [hg1, hg2, htt]
  · intro exec p1 p2 r1 r2 hagree h1 h1s h2 h2s
    obtain ⟨t1, ht1, hg1⟩ := search_observations_ok_200 exec p1 r1 h1 h1s
    obtain ⟨t2, ht2, hg2⟩ := search_observations_ok_200 exec p2 r2 h2 h2s
    rw [observation_buildConditions_agree p1 p2 hagree] at ht1
    have htt : t1 = t2 := Except.ok.inj (ht1.symm.trans ht2)
    rw [hg1, hg2, htt]

theorem total_invariant_under_pagination_witness :
    Encounter.search_encounters (fun _ _ => Except.ok [])
        [("patient", "pat-123"), ("_count", "10")] =
      Except.ok (success_response (Json.obj
        [("resourceType", Json.str "Bundle"), ("type", Json.str "searchset"),
         ("total", Json.num 0), ("entry", Json.arr [])]))
  ∧ (success_response (Json.obj
        [("resourceType", Json.str "Bundle"), ("type", Json.str "searchset"),
         ("total", Json.num 0), ("entry", Json.arr [])])).body.getField "total" =
      (success_response (Json.obj
        [("resourceType", Json.str "Bundle"), ("type", Json.str "searchset"),
         ("total", Json.num 0), ("entry", Json.arr [])])).body.getField "total" := by
  refine ⟨rfl, ?_⟩
  exact total_invariant_under_pagination.1 (fun _ _ => Except.ok [])
    [("patient", "pat-123"), ("_count", "10")]
    [("patient", "pat-123"), ("_count", "5"), ("_offset", "5")] _ _
    (by
      intro k hk
      simp [Encounter.searchKeys] at hk
      rcases hk with rfl | rfl | rfl | rfl <;> rfl)
    rfl rfl rfl rfl
